import Mathlib

/-!
Shallow embedding of the electrobot repository (Go): the `database` package
(sqlite-backed user registry and event store) and the `telegrambot` package
(command dispatch, boot notification, liveness heartbeat, event loop).

Machine integers (`int64` chat/user identifiers) are modelled as `Int`;
sqlite `TIMESTAMP` values as `Nat`. Fallible Go calls returning `error`
are modelled as `Except String`.
-/

set_option autoImplicit false

namespace Electrobot

/-! ## Data model (telegram-bot-api message shape, reduced to the fields the code reads) -/

/-- Sender of a telegram message (`message.From` in the Go code): the fields
`StoreUserInfo` persists. -/
structure TGUser where
  id : Int
  userName : String
  firstName : String
  lastName : String
  deriving DecidableEq, Repr

/-- Inbound telegram message, reduced to the fields the repository reads:
`Chat.ID`, `From`, `MessageID`, and the result of `Command()` together with
`IsCommand()` (command parsing itself happens in the external library). -/
structure Message where
  chatID : Int
  fromUser : TGUser
  messageID : Int
  command : String
  isCommand : Bool
  deriving DecidableEq, Repr

/-- Row of the `tg_users` table (`user_id INTEGER PRIMARY KEY NOT NULL`,
`username`, `first_name`, `last_name`; `created_at` defaults and is never read). -/
structure UserRow where
  user_id : Int
  username : String
  first_name : String
  last_name : String
  deriving DecidableEq, Repr

/-- Row of the `events` table (`name TEXT NOT NULL`, `description`,
`created_at TIMESTAMP`); the autoincrement `id` is never read by the code. -/
structure EventRow where
  name : String
  description : String
  created_at : Nat
  deriving DecidableEq, Repr

/-- State of the sqlite database: the two tables created by
`createTGUsersTable` and `createEventTable`, as lists in insertion order. -/
structure Database where
  tg_users : List UserRow
  events : List EventRow
  deriving DecidableEq, Repr

/-! ## database package (src/unnamed/part_001) -/

/-- Does a `tg_users` row with the given `user_id` exist? This is the
semantics of sqlite `SELECT EXISTS(SELECT 1 FROM tg_users WHERE user_id = ?)`. -/
def memUser (db : Database) (userID : Int) : Bool :=
  db.tg_users.any fun r => r.user_id == userID

/-- Go `StoreUserInfo`: `INSERT INTO tg_users (user_id, username, first_name, last_name)`
with the sender's fields. `user_id` is the primary key, so sqlite rejects the
insert with a constraint violation when a row with `message.From.ID` exists. -/
def StoreUserInfo (db : Database) (message : Message) : Except String Database :=
  if memUser db message.fromUser.id then
    Except.error "UNIQUE constraint failed: tg_users.user_id"
  else
    Except.ok { db with tg_users := db.tg_users ++
      [⟨message.fromUser.id, message.fromUser.userName,
        message.fromUser.firstName, message.fromUser.lastName⟩] }

/-- Go `GetAllUsers`: `SELECT user_id FROM tg_users`, scanned row by row. -/
def GetAllUsers (db : Database) : Except String (List Int) :=
  Except.ok (db.tg_users.map fun r => r.user_id)

/-- Go `UserExists`: `exists` is initialised to `false`; the `EXISTS` query
result is scanned into it; when the scan errors the error is only logged and
the still-`false` value is returned. The optional `fault` injects a storage
fault of the underlying query. -/
def UserExists (db : Database) (userID : Int) (fault : Option String) : Bool :=
  match fault with
  | some _ => false
  | none => memUser db userID

/-- Go `RemoveUserInfo`: `DELETE FROM tg_users WHERE user_id = ?`. Deleting
zero rows is not an sqlite error. -/
def RemoveUserInfo (db : Database) (userID : Int) : Except String Database :=
  Except.ok { db with tg_users := db.tg_users.filter fun r => r.user_id != userID }

/-- Modelled from the spec: the `database` package's `UpdateEvent` is declared
in the `telegrambot.Storage` interface but its implementation is not among the
source files. Per the spec (§4.1, §4.2) the reference behaviour is
update-by-name that reports when no row was affected: every `events` row with
the given name gets the new description and timestamp, and zero affected rows
is surfaced to the caller as an error so that the caller can fall back to an
insert. -/
def UpdateEvent (db : Database) (eventType event : String) (now : Nat) :
    Except String Database :=
  if db.events.any fun e => e.name == eventType then
    Except.ok { db with events := db.events.map fun e =>
      if e.name == eventType then { e with description := event, created_at := now } else e }
  else
    Except.error "no rows affected"

/-- Modelled from the spec: the `database` package's `NewEvent` implementation
is not among the source files. Per the spec (§4.1) it inserts a new timestamped
`events` row with the given name and description. -/
def NewEvent (db : Database) (eventType event : String) (now : Nat) :
    Except String Database :=
  Except.ok { db with events := db.events ++ [⟨eventType, event, now⟩] }

/-- Helper scan for `GetLatestEventDateTime`: the greatest `created_at` among
events with the given name, `none` when there is no such event. -/
def latestTime : List EventRow → String → Option Nat
  | [], _ => none
  | e :: rest, name =>
    if e.name == name then
      match latestTime rest name with
      | none => some e.created_at
      | some t => some (max e.created_at t)
    else latestTime rest name

/-- Modelled from the spec: the `database` package's `GetLatestEventDateTime`
implementation is not among the source files. Per the spec (§4.1) it returns
the timestamp of the most recent event with the given name and fails with
`NotFound` when no such event exists. -/
def GetLatestEventDateTime (db : Database) (eventType : String) : Except String Nat :=
  match latestTime db.events eventType with
  | none => Except.error "NotFound"
  | some t => Except.ok t

/-! ## telegrambot package (src/electrobot.go): command handlers -/

/-- Outbound message built by `handleTGMessageCommand`:
`botApi.NewMessage(updateMessage.Chat.ID, "")` with
`ReplyToMessageID = updateMessage.MessageID` and a `Text` set by the dispatch. -/
structure Reply where
  chatID : Int
  replyToMessageID : Int
  text : String
  deriving DecidableEq, Repr

/-- State of the bot the command handlers read and write: the storage handle
and the recovered last-alive time, carried in the already formatted form the
handlers interpolate (`lastShutdownTime.Local().Format(...)`). -/
structure BotState where
  db : Database
  lastShutdownFormatted : String
  deriving DecidableEq, Repr

/-- Go `handleLastShutdownCommand`: a fixed prefix followed by the formatted
last shutdown time. -/
def handleLastShutdownCommand (bot : BotState) : String :=
  "Last shutdown time is " ++ bot.lastShutdownFormatted

/-- Go `handleStartCommand`: check `UserExists(userID)`; when absent, attempt
`StoreUserInfo(*messageBody)` and reply according to the store result. Returns
the reply text and the database after the handler. -/
def handleStartCommand (db : Database) (userID : Int) (messageBody : Message) :
    String × Database :=
  if UserExists db userID none then
    ("You're already registered", db)
  else
    match StoreUserInfo db messageBody with
    | Except.error _ => ("Failed to register you. Please try again later", db)
    | Except.ok db2 => ("You've been successfully registered", db2)

/-- Go `handleStopCommand`: attempt `RemoveUserInfo(userID)` and reply
according to the result. -/
def handleStopCommand (db : Database) (userID : Int) : String × Database :=
  match RemoveUserInfo db userID with
  | Except.error _ => ("Failed to unregister you. Please try again later", db)
  | Except.ok db2 => ("You've been successfully unregistered", db2)

/-- Go `handleHelpCommand`: the static usage message. -/
def handleHelpCommand : String :=
  "Type /start to get started" ++
    "\nType /stop to stop receiving notifications" ++
    "\nType /lastshutdown to get the last shutdown time"

/-- Go `handleTGMessageCommand`: builds the reply addressed to
`updateMessage.Chat.ID`, threaded to `updateMessage.MessageID`, and switches on
`updateMessage.Command()`. Note the Go `case "help":` has an empty body (Go
`switch` does not fall through), so for the `help` command `msg.Text` keeps its
initial empty string and `handleHelpCommand` is reached only from `default:`. -/
def handleTGMessageCommand (bot : BotState) (updateMessage : Message) :
    Reply × Database :=
  match updateMessage.command with
  | "lastshutdown" =>
    (⟨updateMessage.chatID, updateMessage.messageID, handleLastShutdownCommand bot⟩, bot.db)
  | "start" =>
    let r := handleStartCommand bot.db updateMessage.chatID updateMessage
    (⟨updateMessage.chatID, updateMessage.messageID, r.1⟩, r.2)
  | "stop" =>
    let r := handleStopCommand bot.db updateMessage.chatID
    (⟨updateMessage.chatID, updateMessage.messageID, r.1⟩, r.2)
  | "help" =>
    (⟨updateMessage.chatID, updateMessage.messageID, ""⟩, bot.db)
  | _ =>
    (⟨updateMessage.chatID, updateMessage.messageID, handleHelpCommand⟩, bot.db)

/-! ## telegrambot package: boot notification pass -/

/-- Loop body of Go `notifyAllUsers` over the user list: for each user a
message with the boot text is sent; a send failure (the `sendOk` oracle says
which recipients fail) is logged and the loop continues with the next user.
Returns the sends attempted (in order) and the users whose failed send was
logged. -/
def notifyUsersLoop (sendOk : Int → Bool) (text : String) :
    List Int → List (Int × String) × List Int
  | [] => ([], [])
  | user :: rest =>
    let r := notifyUsersLoop sendOk text rest
    ((user, text) :: r.1, if sendOk user then r.2 else user :: r.2)

/-- Go `notifyAllUsers`: fetch all users (an error there is returned and aborts
startup), then loop over them sending the boot text, logging per-recipient
failures without aborting, and return `nil`. -/
def notifyAllUsers (db : Database) (text : String) (sendOk : Int → Bool) :
    Except String (List (Int × String) × List Int) :=
  match GetAllUsers db with
  | Except.error e => Except.error e
  | Except.ok users => Except.ok (notifyUsersLoop sendOk text users)

/-! ## telegrambot package: liveness heartbeat and event loop -/

/-- Go `updateIsAliveState`: try `UpdateEvent("Bot is alive", "Bot is alive")`;
when it returns an error, fall back to `NewEvent` (whose own error is only
logged). -/
def updateIsAliveState (db : Database) (now : Nat) : Database :=
  match UpdateEvent db "Bot is alive" "Bot is alive" now with
  | Except.ok db2 => db2
  | Except.error _ =>
    match NewEvent db "Bot is alive" "Bot is alive" now with
    | Except.ok db2 => db2
    | Except.error _ => db

/-- Number of `events` rows with the given name: the observable the
update-or-insert heartbeat policy constrains. -/
def eventCount (db : Database) (name : String) : Nat :=
  (db.events.filter fun e => e.name == name).length

/-- Outcome of one wait of the `select` in Go `handler`: a tick of the
5-second `updateStateTicker` (carrying the current time), an update from the
update channel (whose `Message` may be `nil`), or readiness of `ctx.Done()`
after `Close` ran `cancelFunc`. -/
inductive LoopEvent where
  | tick (now : Nat)
  | update (msg : Option Message)
  | cancelled
  deriving DecidableEq, Repr

/-- Go `handler` loop, run over the sequence of `select` outcomes: a tick
records the liveness event, an update with a `nil` message is skipped, a
command message is dispatched through `handleTGMessageCommand`, and the
cancellation signal returns from the loop, so the remaining outcomes are
never processed. -/
def handlerRun (bot : BotState) : List LoopEvent → BotState
  | [] => bot
  | LoopEvent.cancelled :: _ => bot
  | LoopEvent.tick now :: rest =>
    handlerRun { bot with db := updateIsAliveState bot.db now } rest
  | LoopEvent.update none :: rest => handlerRun bot rest
  | LoopEvent.update (some m) :: rest =>
    if m.isCommand then
      handlerRun { bot with db := (handleTGMessageCommand bot m).2 } rest
    else
      handlerRun bot rest

/-! ## Concrete fixtures for witnesses and counterexamples -/

/-- Empty database: fresh store right after table creation. -/
def dbEmpty : Database := ⟨[], []⟩

/-- Sender with platform identity 7 (the spec's command dispatch scenario). -/
def user7 : TGUser := ⟨7, "u", "g", "f"⟩

/-- Private-chat `/start` message from identity 7: chat identity equals sender
identity. -/
def msg7 : Message := ⟨7, user7, 1, "start", true⟩

/-- Message from sender 7 arriving in chat 5: chat identity differs from
sender identity. -/
def msg57 : Message := ⟨5, user7, 2, "start", true⟩

/-- Database already holding the registration row of identity 7. -/
def db7 : Database := ⟨[⟨7, "u", "g", "f"⟩], []⟩

/-- Bot state over `db7`. -/
def bot7 : BotState := ⟨db7, "2024-01-01 00:00:00"⟩

/-- Bot state over the empty database. -/
def botEmpty : BotState := ⟨dbEmpty, "2024-01-01 00:00:00"⟩

/-- Help command message in a private chat of identity 7. -/
def msgHelp : Message := ⟨7, user7, 3, "help", true⟩

/-- Unrecognized command message in a private chat of identity 7. -/
def msgBogus : Message := ⟨7, user7, 4, "frobnicate", true⟩

/-- Event store with two heartbeat rows, timestamps 1 and 5. -/
def dbEvents : Database :=
  ⟨[], [⟨"heartbeat", "x", 1⟩, ⟨"heartbeat", "y", 5⟩]⟩

/-! ## Helper lemmas -/

theorem memUser_iff (db : Database) (userID : Int) :
    memUser db userID = true ↔ ∃ r ∈ db.tg_users, r.user_id = userID := by
  simp [memUser, List.any_eq_true]

theorem memUser_eq_false (db : Database) (userID : Int) :
    memUser db userID = false ↔ ∀ r ∈ db.tg_users, r.user_id ≠ userID := by
  simp [memUser, List.any_eq_false]

theorem notifyUsersLoop_spec (sendOk : Int → Bool) (text : String) (users : List Int) :
    notifyUsersLoop sendOk text users =
      (users.map fun u => (u, text), users.filter fun u => !(sendOk u)) := by
  induction users with
  | nil => rfl
  | cons u rest ih =>
    simp only [notifyUsersLoop, ih, List.map_cons, List.filter_cons]
    cases h : sendOk u <;> simp [h]

theorem RemoveUserInfo_not_mem (db : Database) (userID : Int)
    (h : memUser db userID = false) : RemoveUserInfo db userID = Except.ok db := by
  have hall := (memUser_eq_false db userID).mp h
  simp only [RemoveUserInfo, Except.ok.injEq]
  have : db.tg_users.filter (fun r => r.user_id != userID) = db.tg_users := by
    apply List.filter_eq_self.mpr
    intro r hr
    simpa using hall r hr
  simp [this]

theorem RemoveUserInfo_twice (db : Database) (userID : Int) :
    (RemoveUserInfo db userID).bind (fun d => RemoveUserInfo d userID) =
      RemoveUserInfo db userID := by
  simp only [RemoveUserInfo, Except.bind, Except.ok.injEq]
  congr 1
  apply List.filter_eq_self.mpr
  intro r hr
  exact (List.mem_filter.mp hr).2

theorem filter_length_map_of_pres (p : EventRow → Bool) (f : EventRow → EventRow)
    (hpf : ∀ e, p (f e) = p e) (l : List EventRow) :
    ((l.map f).filter p).length = (l.filter p).length := by
  induction l with
  | nil => rfl
  | cons e rest ih =>
    simp only [List.map_cons, List.filter_cons, hpf e]
    cases h : p e <;> simp [ih]

theorem filter_update_map_length (l : List EventRow) (name desc : String) (now : Nat) :
    ((l.map fun e =>
        if e.name == name then { e with description := desc, created_at := now } else e).filter
      (fun e => e.name == name)).length = (l.filter fun e => e.name == name).length := by
  apply filter_length_map_of_pres
  intro e
  by_cases he : e.name = name <;> simp [he]

theorem memUser_append_row (db : Database) (row : UserRow) (id : Int) :
    memUser { db with tg_users := db.tg_users ++ [row] } id =
      (memUser db id || (row.user_id == id)) := by
  simp [memUser, List.any_append]

theorem memUser_filter_out (db : Database) (id : Int) :
    memUser { db with tg_users := db.tg_users.filter (fun r => r.user_id != id) } id =
      false := by
  rw [memUser, List.any_eq_false]
  intro r hr
  have h2 := (List.mem_filter.mp hr).2
  simp only [bne_iff_ne, ne_eq] at h2
  simpa using h2

theorem not_mem_map_filter_out (l : List UserRow) (id : Int) :
    id ∉ (l.filter (fun r => r.user_id != id)).map (fun r => r.user_id) := by
  intro hm
  obtain ⟨r, hr, hid⟩ := List.mem_map.mp hm
  have h2 := (List.mem_filter.mp hr).2
  simp [hid] at h2

theorem latestTime_none (l : List EventRow) (name : String)
    (h : latestTime l name = none) : ∀ e ∈ l, (e.name == name) = false := by
  induction l with
  | nil => simp
  | cons e rest ih =>
    intro x hx
    cases hp : e.name == name
    · simp only [latestTime, hp, Bool.false_eq_true, if_neg, ite_false] at h
      rcases List.mem_cons.mp hx with rfl | hx2
      · exact hp
      · exact ih h x hx2
    · exfalso
      simp only [latestTime, hp, if_true] at h
      cases hr : latestTime rest name <;> simp [hr] at h

theorem latestTime_some_mem (l : List EventRow) (name : String) (t : Nat)
    (h : latestTime l name = some t) : ∃ e ∈ l, e.name = name ∧ e.created_at = t := by
  induction l generalizing t with
  | nil => simp [latestTime] at h
  | cons e rest ih =>
    cases hp : e.name == name
    · simp only [latestTime, hp, Bool.false_eq_true, if_neg, ite_false] at h
      obtain ⟨x, hx, hxn, hxt⟩ := ih t h
      exact ⟨x, List.mem_cons_of_mem _ hx, hxn, hxt⟩
    · simp only [latestTime, hp, if_true] at h
      cases hr : latestTime rest name with
      | none =>
        rw [hr] at h
        refine ⟨e, List.mem_cons_self _ _, by simpa using hp, ?_⟩
        simpa using h
      | some t0 =>
        rw [hr] at h
        have ht : max e.created_at t0 = t := by simpa using h
        rcases Nat.le_total t0 e.created_at with hle | hle
        · refine ⟨e, List.mem_cons_self _ _, by simpa using hp, ?_⟩
          omega
        · obtain ⟨x, hx, hxn, hxt⟩ := ih t0 hr
          refine ⟨x, List.mem_cons_of_mem _ hx, hxn, ?_⟩
          omega

theorem latestTime_some_ub (l : List EventRow) (name : String) (t : Nat)
    (h : latestTime l name = some t) :
    ∀ e ∈ l, e.name = name → e.created_at ≤ t := by
  induction l generalizing t with
  | nil => simp
  | cons e rest ih =>
    intro x hx hxn
    cases hp : e.name == name
    · simp only [latestTime, hp, Bool.false_eq_true, if_neg, ite_false] at h
      rcases List.mem_cons.mp hx with rfl | hx2
      · exact absurd (by simpa using hxn) (by simpa using hp)
      · exact ih t h x hx2 hxn
    · simp only [latestTime, hp, if_true] at h
      cases hr : latestTime rest name with
      | none =>
        rw [hr] at h
        rcases List.mem_cons.mp hx with rfl | hx2
        · simpa using Nat.le_of_eq (by simpa using h)
        · exact absurd (latestTime_none rest name hr x hx2) (by simp [hxn])
      | some t0 =>
        rw [hr] at h
        have ht : max e.created_at t0 = t := by simpa using h
        rcases List.mem_cons.mp hx with rfl | hx2
        · omega
        · have := ih t0 hr x hx2 hxn
          omega

/-! ## Claim theorems -/

/-- C3: the claim says both the `help` command and unrecognized commands reply
with the static usage message. The code disagrees on `help`: the Go
`case "help":` has an empty body (no fallthrough), so `/help` is answered with
an empty text while only unrecognized commands get `handleHelpCommand`. This
theorem evaluates the dispatcher at a `/help` message and at an unrecognized
command, exhibiting the divergence. -/
theorem C3_help_reply_empty_bug :
    (handleTGMessageCommand bot7 msgHelp).1.text = "" ∧
      (handleTGMessageCommand bot7 msgHelp).1.text ≠ handleHelpCommand ∧
      (handleTGMessageCommand bot7 msgBogus).1.text = handleHelpCommand ∧
      handleHelpCommand =
        "Type /start to get started" ++
          "\nType /stop to stop receiving notifications" ++
          "\nType /lastshutdown to get the last shutdown time" := by
  refine ⟨rfl, ?_, rfl, rfl⟩
  decide

/-- C4: `removeSubscriber` is idempotent: removing an identity that has no
row succeeds and leaves the registry unchanged, and removing any identity
twice in a row equals removing it once. -/
theorem C4_removeSubscriber_idempotent (db : Database) (userID : Int)
    (h : memUser db userID = false) :
    RemoveUserInfo db userID = Except.ok db ∧
      ∀ d : Database, ∀ i : Int,
        (RemoveUserInfo d i).bind (fun d2 => RemoveUserInfo d2 i) = RemoveUserInfo d i :=
  ⟨RemoveUserInfo_not_mem db userID h, fun d i => RemoveUserInfo_twice d i⟩

/-- C4 witness: removing the unregistered identity 9 from the empty registry
succeeds unchanged, and removing identity 7 from `db7` twice equals removing
it once. -/
theorem C4_witness :
    RemoveUserInfo dbEmpty 9 = Except.ok dbEmpty ∧
      (RemoveUserInfo db7 7).bind (fun d2 => RemoveUserInfo d2 7) = RemoveUserInfo db7 7 :=
  ⟨(C4_removeSubscriber_idempotent dbEmpty 9 rfl).1,
    (C4_removeSubscriber_idempotent dbEmpty 9 rfl).2 db7 7⟩

/-- C6: `subscriberExists` returns true iff a registry row with that identity
exists, and when the underlying query faults the fault is not propagated: the
call returns `false` (the error is only logged). -/
theorem C6_subscriberExists (db : Database) (userID : Int) :
    (UserExists db userID none = true ↔ ∃ r ∈ db.tg_users, r.user_id = userID) ∧
      ∀ e : String, UserExists db userID (some e) = false :=
  ⟨memUser_iff db userID, fun _ => rfl⟩

/-- C7: the boot-notification pass attempts a send for every subscriber in the
list regardless of which sends fail; per-recipient failures are only logged
(collected, never propagated) and the pass returns success. -/
theorem C7_boot_notification_best_effort (db : Database) (text : String)
    (sendOk : Int → Bool) :
    ∃ att fails, notifyAllUsers db text sendOk = Except.ok (att, fails) ∧
      att.map Prod.fst = db.tg_users.map (fun r => r.user_id) ∧
      fails = (db.tg_users.map fun r => r.user_id).filter (fun u => !(sendOk u)) := by
  refine ⟨(db.tg_users.map fun r => r.user_id).map (fun u => (u, text)),
    (db.tg_users.map fun r => r.user_id).filter (fun u => !(sendOk u)), ?_, ?_, rfl⟩
  · simp [notifyAllUsers, GetAllUsers, notifyUsersLoop_spec]
  · simp

/-- C2: the heartbeat recorder first tries update-by-name and inserts a new
row exactly when the update affected zero rows: the number of rows named
"Bot is alive" after a heartbeat is `max 1` of the count before (so a row is
created only when none existed), and the total number of event rows grows by
one exactly when no row with that name existed. Repeated heartbeats therefore
never accumulate duplicate rows once a row exists. -/
theorem C2_heartbeat_no_duplicates (db : Database) (now : Nat) :
    eventCount (updateIsAliveState db now) "Bot is alive" =
        max 1 (eventCount db "Bot is alive") ∧
      (updateIsAliveState db now).events.length =
        (if eventCount db "Bot is alive" = 0 then db.events.length + 1
         else db.events.length) := by
  cases hb : db.events.any (fun e => e.name == "Bot is alive") with
  | false =>
    have hnil : db.events.filter (fun e => e.name == "Bot is alive") = [] := by
      rw [List.filter_eq_nil_iff]
      intro a ha
      simpa using List.any_eq_false.mp hb a ha
    have hc0 : eventCount db "Bot is alive" = 0 := by simp [eventCount, hnil]
    constructor
    · simp [updateIsAliveState, UpdateEvent, NewEvent, hb, eventCount,
        List.filter_append, hnil]
    · simp [updateIsAliveState, UpdateEvent, NewEvent, hb, hc0]
  | true =>
    have hcpos : eventCount db "Bot is alive" ≠ 0 := by
      obtain ⟨e, he, hpe⟩ := List.any_eq_true.mp hb
      have hmem : e ∈ db.events.filter (fun x => x.name == "Bot is alive") :=
        List.mem_filter.mpr ⟨he, hpe⟩
      intro h0
      rw [eventCount, List.length_eq_zero] at h0
      simp [h0] at hmem
    constructor
    · have h1 : 1 ≤ eventCount db "Bot is alive" := Nat.one_le_iff_ne_zero.mpr hcpos
      simp only [updateIsAliveState, UpdateEvent, hb, if_true]
      rw [eventCount]
      simp only []
      rw [filter_update_map_length]
      rw [eventCount] at h1 ⊢
      omega
    · simp [updateIsAliveState, UpdateEvent, hb, hcpos]

/-- C8: `latestEventTime` returns the timestamp of the most recent stored
event with the given name — the returned time belongs to an event with that
name and dominates every such event's timestamp — and fails with `NotFound`
exactly when no event with that name exists. -/
theorem C8_latestEventTime (db : Database) (name : String) :
    (match GetLatestEventDateTime db name with
      | Except.error e => e = "NotFound" ∧ ∀ ev ∈ db.events, (ev.name == name) = false
      | Except.ok t => (∃ ev ∈ db.events, ev.name = name ∧ ev.created_at = t) ∧
          ∀ ev ∈ db.events, ev.name = name → ev.created_at ≤ t) := by
  cases hr : latestTime db.events name with
  | none =>
    simp only [GetLatestEventDateTime, hr]
    exact ⟨trivial, latestTime_none db.events name hr⟩
  | some t =>
    simp only [GetLatestEventDateTime, hr]
    exact ⟨latestTime_some_mem db.events name t hr, latestTime_some_ub db.events name t hr⟩

/-- C1 counterexample: the claim keys the existence check on the sending
identity, but the code keys it on the chat identity. In `db7` the sender of
`msg57` (identity 7) is already registered, so the claim requires the reply
"You're already registered"; the code checks chat identity 5, attempts
registration of the already present sender, and replies with the failure
message instead. -/
theorem C1_sender_key_counterexample :
    memUser db7 msg57.fromUser.id = true ∧
      msg57.command = "start" ∧
      (handleTGMessageCommand bot7 msg57).1.text ≠ "You're already registered" ∧
      (handleTGMessageCommand bot7 msg57).1.text =
        "Failed to register you. Please try again later" := by
  refine ⟨rfl, rfl, ?_, rfl⟩
  decide

/-- C1 amended: `start` dispatch keyed as the code keys it — the existence
check uses the chat identity of the triggering message, while registration
stores the sender identity. When the chat identity is registered the reply is
"You're already registered" and the registry is unchanged; otherwise
registration of the sender is attempted: it fails (row count unchanged,
failure reply) exactly when the sender identity is already present, and on
success exactly one row is added, holding the sender identity. -/
theorem C1_start_keyed_on_chat (bot : BotState) (m : Message)
    (h : m.command = "start") :
    (handleTGMessageCommand bot m).1.text =
        (if memUser bot.db m.chatID then "You're already registered"
         else if memUser bot.db m.fromUser.id then
           "Failed to register you. Please try again later"
         else "You've been successfully registered") ∧
      (handleTGMessageCommand bot m).2.tg_users.length =
        (if memUser bot.db m.chatID then bot.db.tg_users.length
         else if memUser bot.db m.fromUser.id then bot.db.tg_users.length
         else bot.db.tg_users.length + 1) ∧
      (if memUser bot.db m.chatID then (handleTGMessageCommand bot m).2 = bot.db
       else if memUser bot.db m.fromUser.id then (handleTGMessageCommand bot m).2 = bot.db
       else memUser (handleTGMessageCommand bot m).2 m.fromUser.id = true) := by
  cases hc : memUser bot.db m.chatID with
  | true =>
    simp [handleTGMessageCommand, h, handleStartCommand, UserExists, hc]
  | false =>
    cases hf : memUser bot.db m.fromUser.id with
    | true =>
      simp [handleTGMessageCommand, h, handleStartCommand, UserExists, StoreUserInfo, hc, hf]
    | false =>
      simp only [handleTGMessageCommand, h, handleStartCommand, UserExists, StoreUserInfo]
      simp [hc, hf]
      simp [memUser, List.any_append]

/-- C1 witness: a first `/start` from identity 7 in its private chat, on the
fresh store, adds one row and replies with the success text. -/
theorem C1_start_witness :
    (handleTGMessageCommand botEmpty msg7).1.text = "You've been successfully registered" ∧
      (handleTGMessageCommand botEmpty msg7).2.tg_users.length = 1 := by
  have h := C1_start_keyed_on_chat botEmpty msg7 rfl
  refine ⟨?_, ?_⟩
  · simpa using h.1
  · simpa using h.2.1

/-- C9: once the cancellation signal fired by `Close` is selected, the event
loop returns: over any sequence of select outcomes, the outcomes after the
first cancellation are never processed, so the bot state (in particular the
database, hence all storage writes) is exactly what the outcomes before the
cancellation produced. The real-time reading — exit within one tick
interval — corresponds to the loop taking the already ready cancellation
branch at its next wait. -/
theorem C9_loop_exit_on_cancel (bot : BotState) (pre post : List LoopEvent)
    (h : LoopEvent.cancelled ∉ pre) :
    handlerRun bot (pre ++ LoopEvent.cancelled :: post) = handlerRun bot pre := by
  induction pre generalizing bot with
  | nil => rfl
  | cons e rest ih =>
    have hr : LoopEvent.cancelled ∉ rest := fun hm => h (List.mem_cons_of_mem _ hm)
    cases e with
    | tick now =>
      simpa only [List.cons_append, handlerRun] using
        ih { bot with db := updateIsAliveState bot.db now } hr
    | update msg =>
      cases msg with
      | none => simpa only [List.cons_append, handlerRun] using ih bot hr
      | some m =>
        cases hm : m.isCommand with
        | true =>
          simpa only [List.cons_append, handlerRun, hm, if_true] using
            ih { bot with db := (handleTGMessageCommand bot m).2 } hr
        | false =>
          simpa only [List.cons_append, handlerRun, hm, Bool.false_eq_true, if_neg,
            ite_false] using ih bot hr
    | cancelled => exact absurd (List.mem_cons_self _ _) h

/-- C9 witness: a trace with one tick before and one tick after the
cancellation signal: the tick after the cancellation is not processed. -/
theorem C9_witness :
    handlerRun botEmpty ([LoopEvent.tick 1] ++ LoopEvent.cancelled :: [LoopEvent.tick 2]) =
      handlerRun botEmpty [LoopEvent.tick 1] :=
  C9_loop_exit_on_cancel botEmpty [LoopEvent.tick 1] [LoopEvent.tick 2] (by decide)

/-- C10: the `start` existence check and the `stop` deletion are keyed on the
chat identity while registration stores the sender identity. For a `/start`
message whose chat and sender are both unregistered, registration succeeds and
stores the sender identity; afterwards the chat identity is registered exactly
when it coincides with the sender identity, so in a private chat a second
`/start` is told "You're already registered", while with distinct identities
the existence check misses the stored row and the second `/start` fails with
the store error reply. The `stop` path deletes by chat identity. -/
theorem C10_chat_vs_sender_keying (bot : BotState) (m : Message)
    (hs : m.command = "start")
    (h1 : memUser bot.db m.chatID = false)
    (h2 : memUser bot.db m.fromUser.id = false) :
    (handleTGMessageCommand bot m).1.text = "You've been successfully registered" ∧
      memUser (handleTGMessageCommand bot m).2 m.fromUser.id = true ∧
      memUser (handleTGMessageCommand bot m).2 m.chatID = (m.fromUser.id == m.chatID) ∧
      (handleTGMessageCommand { bot with db := (handleTGMessageCommand bot m).2 } m).1.text =
        (if m.fromUser.id == m.chatID then "You're already registered"
         else "Failed to register you. Please try again later") ∧
      (handleTGMessageCommand bot { m with command := "stop" }).2.tg_users =
        bot.db.tg_users.filter (fun r => r.user_id != m.chatID) := by
  have hstep : (handleTGMessageCommand bot m).2 =
      { bot.db with tg_users := bot.db.tg_users ++
        [⟨m.fromUser.id, m.fromUser.userName, m.fromUser.firstName, m.fromUser.lastName⟩] } := by
    simp only [handleTGMessageCommand, hs, handleStartCommand, UserExists, StoreUserInfo]
    simp [h1, h2]
  have htext : (handleTGMessageCommand bot m).1.text = "You've been successfully registered" := by
    simp only [handleTGMessageCommand, hs, handleStartCommand, UserExists, StoreUserInfo]
    simp [h1, h2]
  have hmm : memUser (handleTGMessageCommand bot m).2 m.chatID = (m.fromUser.id == m.chatID) := by
    rw [hstep, memUser_append_row, h1]
    simp
  have hfa : memUser (handleTGMessageCommand bot m).2 m.fromUser.id = true := by
    rw [hstep, memUser_append_row, h2]
    simp
  refine ⟨htext, hfa, hmm, ?_, ?_⟩
  · rw [hstep] at hmm hfa
    rw [hstep]
    cases he : m.fromUser.id == m.chatID with
    | true =>
      rw [he] at hmm
      simp only [handleTGMessageCommand, hs, handleStartCommand, UserExists]
      simp [hmm]
    | false =>
      rw [he] at hmm
      simp only [handleTGMessageCommand, hs, handleStartCommand, UserExists, StoreUserInfo]
      simp [hmm, hfa]
  · simp [handleTGMessageCommand, handleStopCommand, RemoveUserInfo]

/-- C5: round-trip of the registry operations. After a successful
`insertSubscriber`, the stored sender identity exists and appears in
`listSubscribers`; after a subsequent `removeSubscriber` of that identity it
no longer exists and is absent from `listSubscribers`. -/
theorem C5_registry_roundtrip (db db1 : Database) (m : Message)
    (h : StoreUserInfo db m = Except.ok db1) :
    memUser db1 m.fromUser.id = true ∧
      (∃ l, GetAllUsers db1 = Except.ok l ∧ m.fromUser.id ∈ l) ∧
      ∃ db2, RemoveUserInfo db1 m.fromUser.id = Except.ok db2 ∧
        memUser db2 m.fromUser.id = false ∧
        ∃ l2, GetAllUsers db2 = Except.ok l2 ∧ m.fromUser.id ∉ l2 := by
  unfold StoreUserInfo at h
  cases hm : memUser db m.fromUser.id with
  | true => simp [hm] at h
  | false =>
    rw [hm] at h
    simp only [Bool.false_eq_true, if_false, ite_false, Except.ok.injEq] at h
    subst h
    refine ⟨?_, ⟨_, rfl, ?_⟩, _, rfl, ?_, _, rfl, ?_⟩
    · rw [memUser_append_row, hm]
      simp
    · simp [GetAllUsers]
    · exact memUser_filter_out _ m.fromUser.id
    · exact not_mem_map_filter_out _ m.fromUser.id

/-- C5 witness: inserting identity 42-like sender 7 into the fresh store makes
it exist and appear in the listing; removing it makes both false again. -/
theorem C5_witness :
    memUser db7 (7 : Int) = true ∧
      (∃ l, GetAllUsers db7 = Except.ok l ∧ (7 : Int) ∈ l) ∧
      ∃ db2, RemoveUserInfo db7 (7 : Int) = Except.ok db2 ∧
        memUser db2 (7 : Int) = false ∧
        ∃ l2, GetAllUsers db2 = Except.ok l2 ∧ (7 : Int) ∉ l2 :=
  C5_registry_roundtrip dbEmpty db7 msg7 rfl

/-- C10 witness: on the fresh store, `/start` from sender 7 in chat 5
registers sender 7, yet the chat-keyed existence check still misses it, so the
repeated `/start` gets the failure reply; the stop path deletes by the chat
key. -/
theorem C10_witness :
    (handleTGMessageCommand botEmpty msg57).1.text = "You've been successfully registered" ∧
      memUser (handleTGMessageCommand botEmpty msg57).2 msg57.fromUser.id = true ∧
      memUser (handleTGMessageCommand botEmpty msg57).2 msg57.chatID =
        (msg57.fromUser.id == msg57.chatID) ∧
      (handleTGMessageCommand
          { botEmpty with db := (handleTGMessageCommand botEmpty msg57).2 } msg57).1.text =
        (if msg57.fromUser.id == msg57.chatID then "You're already registered"
         else "Failed to register you. Please try again later") ∧
      (handleTGMessageCommand botEmpty { msg57 with command := "stop" }).2.tg_users =
        botEmpty.db.tg_users.filter (fun r => r.user_id != msg57.chatID) :=
  C10_chat_vs_sender_keying botEmpty msg57 rfl rfl rfl

end Electrobot
